import Mathlib

/-!
Verification development for the news-evaluator-api repository.

The Python source under scrutiny is shallowly embedded below:
pure helpers become Lean functions, calls to external services
(LLM routers, the database, HTTP fetches) become explicit parameters
carrying the observed response, and Python exceptions become
`Except`/`Option` error values.
-/

/-! ## A model of Python JSON values and of `json.dumps` / `json.loads`

`Json` models the values the repository passes through `json`:
dicts keep insertion order as association lists.  Numbers are
restricted to integers: no input modelled in this file contains a
float literal. -/

inductive Json where
  | null : Json
  | bool : Bool → Json
  | num : Int → Json
  | str : String → Json
  | arr : List Json → Json
  | obj : List (String × Json) → Json

/-- The double-quote character. -/
def qc : Char := Char.ofNat 34

/-- The backslash character. -/
def bsl : Char := Char.ofNat 92

/-- The single-quote character. -/
def apos : Char := Char.ofNat 39

/-- The opening curly bracket. -/
def obr : Char := Char.ofNat 123

/-- The closing curly bracket. -/
def cbr : Char := Char.ofNat 125

/-- Hex digit used by the `\uXXXX` escapes of `json.dumps`. -/
def hexDigit (n : Nat) : Char :=
  if n < 10 then Char.ofNat (48 + n) else Char.ofNat (87 + n)

/-- Escaping of one character inside a JSON string literal, following
`json.dumps` with its default `ensure_ascii=True` (code points above
0xFFFF would need surrogate pairs; none appear in the modelled data). -/
def escChar (c : Char) : List Char :=
  if c = qc then [bsl, qc]
  else if c = bsl then [bsl, bsl]
  else if c = Char.ofNat 10 then [bsl, 'n']
  else if c = Char.ofNat 9 then [bsl, 't']
  else if c = Char.ofNat 13 then [bsl, 'r']
  else if c = Char.ofNat 8 then [bsl, 'b']
  else if c = Char.ofNat 12 then [bsl, 'f']
  else if c.toNat < 32 ∨ 127 ≤ c.toNat then
    [bsl, 'u', hexDigit (c.toNat / 4096 % 16), hexDigit (c.toNat / 256 % 16),
      hexDigit (c.toNat / 16 % 16), hexDigit (c.toNat % 16)]
  else [c]

/-- A JSON string literal, quotes included. -/
def quoteStr (s : String) : String :=
  String.mk ([qc] ++ (s.toList.map escChar).flatten ++ [qc])

mutual

/-- `json.dumps` with the Python default separators `", "` and `": "`. -/
def dumpsJson : Json → String
  | .null => "null"
  | .bool b => if b then "true" else "false"
  | .num n => toString n
  | .str s => quoteStr s
  | .arr xs => "[" ++ dumpsArr xs ++ "]"
  | .obj kvs => "\x7b" ++ dumpsObj kvs ++ "\x7d"

/-- Array elements of `json.dumps`, comma separated. -/
def dumpsArr : List Json → String
  | [] => ""
  | [x] => dumpsJson x
  | x :: y :: xs => dumpsJson x ++ ", " ++ dumpsArr (y :: xs)

/-- Object members of `json.dumps`, comma separated. -/
def dumpsObj : List (String × Json) → String
  | [] => ""
  | [(k, v)] => quoteStr k ++ ": " ++ dumpsJson v
  | (k, v) :: m :: xs => quoteStr k ++ ": " ++ dumpsJson v ++ ", " ++ dumpsObj (m :: xs)

end

/-- JSON whitespace accepted by `json.loads` between tokens. -/
def jsonWs (c : Char) : Bool :=
  c = ' ' ∨ c = Char.ofNat 9 ∨ c = Char.ofNat 10 ∨ c = Char.ofNat 13

/-- Skip JSON whitespace. -/
def skipWs (cs : List Char) : List Char := cs.dropWhile jsonWs

/-- Characters of a JSON string body up to the closing quote,
decoding the standard escapes (`\uXXXX` is not needed by any input
modelled here and is rejected). -/
def parseStrChars : List Char → Option (List Char × List Char)
  | [] => none
  | c :: rest =>
    if c = qc then some ([], rest)
    else if c = bsl then
      match rest with
      | [] => none
      | e :: r2 =>
        let dec : Option Char :=
          if e = qc then some qc
          else if e = bsl then some bsl
          else if e = '/' then some '/'
          else if e = 'n' then some (Char.ofNat 10)
          else if e = 't' then some (Char.ofNat 9)
          else if e = 'r' then some (Char.ofNat 13)
          else if e = 'b' then some (Char.ofNat 8)
          else if e = 'f' then some (Char.ofNat 12)
          else none
        match dec with
        | none => none
        | some d =>
          match parseStrChars r2 with
          | none => none
          | some (cs2, r3) => some (d :: cs2, r3)
    else
      match parseStrChars rest with
      | none => none
      | some (cs2, r2) => some (c :: cs2, r2)

/-- A JSON string token, starting at its opening quote. -/
def parseJString (cs : List Char) : Option (String × List Char) :=
  match cs with
  | c :: rest =>
    if c = qc then (parseStrChars rest).map (fun p => (String.mk p.1, p.2)) else none
  | [] => none

/-- A JSON number token; integers only (floats are rejected: none of
the modelled inputs contains one). -/
def parseNumber (cs : List Char) : Option (Json × List Char) :=
  let negp := match cs with
    | c :: r => if c = '-' then (true, r) else (false, cs)
    | [] => (false, cs)
  let ds := negp.2.takeWhile Char.isDigit
  let rest := negp.2.dropWhile Char.isDigit
  if ds.isEmpty then none
  else
    let v : Int := Int.ofNat (ds.foldl (fun a c => a * 10 + (c.toNat - 48)) 0)
    let v := if negp.1 then -v else v
    match rest with
    | c :: _ => if c = '.' ∨ c = 'e' ∨ c = 'E' then none else some (Json.num v, rest)
    | [] => some (Json.num v, rest)

mutual

/-- One JSON value, recursive descent with fuel. -/
def parseVal : Nat → List Char → Option (Json × List Char)
  | 0, _ => none
  | fuel + 1, cs =>
    let cs := skipWs cs
    match cs with
    | [] => none
    | c :: rest =>
      if c = obr then
        let cs2 := skipWs rest
        match cs2 with
        | d :: r2 =>
          if d = cbr then some (Json.obj [], r2)
          else (parseMembers fuel cs2).map (fun p => (Json.obj p.1, p.2))
        | [] => none
      else if c = '[' then
        let cs2 := skipWs rest
        match cs2 with
        | d :: r2 =>
          if d = ']' then some (Json.arr [], r2)
          else (parseItems fuel cs2).map (fun p => (Json.arr p.1, p.2))
        | [] => none
      else if c = qc then
        (parseJString cs).map (fun p => (Json.str p.1, p.2))
      else if c = 't' then
        match cs with
        | 't' :: 'r' :: 'u' :: 'e' :: r => some (Json.bool true, r)
        | _ => none
      else if c = 'f' then
        match cs with
        | 'f' :: 'a' :: 'l' :: 's' :: 'e' :: r => some (Json.bool false, r)
        | _ => none
      else if c = 'n' then
        match cs with
        | 'n' :: 'u' :: 'l' :: 'l' :: r => some (Json.null, r)
        | _ => none
      else parseNumber cs

/-- Object members after the opening brace (at least one member). -/
def parseMembers : Nat → List Char → Option (List (String × Json) × List Char)
  | 0, _ => none
  | fuel + 1, cs =>
    match parseJString (skipWs cs) with
    | none => none
    | some (k, cs1) =>
      match skipWs cs1 with
      | c :: cs2 =>
        if c = ':' then
          match parseVal fuel cs2 with
          | none => none
          | some (v, cs3) =>
            match skipWs cs3 with
            | d :: cs4 =>
              if d = ',' then (parseMembers fuel cs4).map (fun p => ((k, v) :: p.1, p.2))
              else if d = cbr then some ([(k, v)], cs4)
              else none
            | [] => none
        else none
      | [] => none

/-- Array items after the opening bracket (at least one item). -/
def parseItems : Nat → List Char → Option (List Json × List Char)
  | 0, _ => none
  | fuel + 1, cs =>
    match parseVal fuel cs with
    | none => none
    | some (v, cs1) =>
      match skipWs cs1 with
      | d :: cs2 =>
        if d = ',' then (parseItems fuel cs2).map (fun p => (v :: p.1, p.2))
        else if d = ']' then some ([v], cs2)
        else none
      | [] => none

end

/-- `json.loads`: parse one value, demand only whitespace after it. -/
def loads (s : String) : Option Json :=
  match parseVal (4 * s.length + 8) s.toList with
  | some (v, rest) => if (skipWs rest).isEmpty then some v else none
  | none => none

example : loads "\x7b\"a\": 1\x7d" = some (Json.obj [("a", Json.num 1)]) := by rfl

example : dumpsJson (Json.obj [("a", Json.num 1)]) = "\x7b\"a\": 1\x7d" := by rfl

example :
    loads (dumpsJson (Json.str (dumpsJson (Json.obj [("a", Json.num 1)])))) =
      some (Json.str "\x7b\"a\": 1\x7d") := by rfl

/-! ## `utils.clean_llm_json`  (src/utils.py lines 5-45) -/

/-- Whitespace stripped by Python `str.strip()` (ASCII part; the
modelled inputs are ASCII). -/
def pyWs (c : Char) : Bool :=
  c = ' ' ∨ c = Char.ofNat 9 ∨ c = Char.ofNat 10 ∨ c = Char.ofNat 13 ∨
    c = Char.ofNat 11 ∨ c = Char.ofNat 12

/-- Python `str.strip()`. -/
def pyStripWs (cs : List Char) : List Char :=
  ((cs.dropWhile pyWs).reverse.dropWhile pyWs).reverse

/-- Python `str.strip(ch)` for a single character. -/
def stripChar (ch : Char) (cs : List Char) : List Char :=
  ((cs.dropWhile (· = ch)).reverse.dropWhile (· = ch)).reverse

/-- The backtick character of the code fences. -/
def btick : Char := Char.ofNat 96

/-- `re.sub(r"^` three backticks `(?:json)?", "", text)`: drop one
leading fence marker, with its optional `json` tag. -/
def dropFenceOpen (cs : List Char) : List Char :=
  match cs with
  | a :: b :: c :: r =>
    if a = btick ∧ b = btick ∧ c = btick then
      match r with
      | d :: e :: f :: g :: r2 =>
        if d = 'j' ∧ e = 's' ∧ f = 'o' ∧ g = 'n' then r2 else d :: e :: f :: g :: r2
      | _ => r
    else a :: b :: c :: r
  | _ => cs

/-- `re.sub(r"` three backticks `$", "", text)`: drop one trailing
fence marker. -/
def dropFenceSuffix (cs : List Char) : List Char :=
  match cs.reverse with
  | a :: b :: c :: r =>
    if a = btick ∧ b = btick ∧ c = btick then r.reverse else cs
  | _ => cs

/-- Everything from the start of `cs` up to and including the last
occurrence of `t` (used to realise the greedy `[\s\S]*` of the regex
fallback). -/
def takeToLast (t : Char) (cs : List Char) : List Char :=
  (cs.reverse.dropWhile (· ≠ t)).reverse

/-- `re.search(r"(\x7b[\s\S]*\x7d|\[[\s\S]*\])", text)`: the leftmost
position where either alternative can match, extended greedily to the
last matching closing bracket. -/
def extractJsonSpan : List Char → Option (List Char)
  | [] => none
  | c :: r =>
    if c = obr ∧ r.contains cbr then some (c :: takeToLast cbr r)
    else if c = '[' ∧ r.contains ']' then some (c :: takeToLast ']' r)
    else extractJsonSpan r

/-- `utils.clean_llm_json` (src/utils.py lines 5-45).  Notes on two
source paths: the double-decoding attempt of lines 27-29 calls
`json.loads(text)` again on the same `text` whose direct parse just
failed, so it fails again and falls through; it is therefore not a
separate branch of the result.  The final fallback of lines 40-42
retries the extracted span with single quotes replaced by double
quotes. -/
def cleanLlmJson (s : String) : Json :=
  if s.isEmpty then Json.obj []
  else
    let cs := pyStripWs s.toList
    let cs := dropFenceOpen cs
    let cs := dropFenceSuffix cs
    let cs := stripChar apos (stripChar qc (pyStripWs cs))
    match loads (String.mk cs) with
    | some v => v
    | none =>
      match extractJsonSpan cs with
      | none => Json.obj []
      | some span =>
        match loads (String.mk span) with
        | some v => v
        | none =>
          match loads (String.mk (span.map (fun c => if c = apos then qc else c))) with
          | some v => v
          | none => Json.obj []

example :
    cleanLlmJson ("```json\n" ++ dumpsJson (Json.obj [("a", Json.num 1)]) ++ "\n```") =
      Json.obj [("a", Json.num 1)] := by rfl

example :
    cleanLlmJson (dumpsJson (Json.str (dumpsJson (Json.obj [("a", Json.num 1)])))) =
      Json.obj [] := by rfl

/-! ## `utils.looks_like_article_url`  (src/utils.py lines 89-105) -/

/-- Path extraction of `urllib.parse.urlparse(url).path`, modelled for
the absolute `http(s)` URLs the endpoint receives: drop the scheme and
authority, keep everything from the first slash of the remainder up to
the query or fragment. -/
def dropSchemeAux : List Char → Option (List Char)
  | ':' :: a :: b :: r => if a = '/' ∧ b = '/' then some r else dropSchemeAux (a :: b :: r)
  | _ :: r => dropSchemeAux r
  | [] => none

/-- Skip the authority: everything before the first slash. -/
def dropToSlash : List Char → List Char
  | [] => []
  | c :: r => if c = '/' then c :: r else dropToSlash r

/-- The path component of a URL (see `dropSchemeAux`). -/
def parsePath (url : String) : List Char :=
  let hostPath := (dropSchemeAux url.toList).getD url.toList
  (dropToSlash hostPath).takeWhile (fun c => c ≠ '?' ∧ c ≠ '#')

/-- `str.lower`, ASCII range (the gate lowercases the path before all
its checks; no modelled URL contains non-ASCII letters). -/
def lowerCh (c : Char) : Char :=
  if 65 ≤ c.toNat ∧ c.toNat ≤ 90 then Char.ofNat (c.toNat + 32) else c

/-- Python `str.split(sep)` for a one-character separator: the result
always has one more part than there are separators, so `""` gives
`[""]`. -/
def splitOnChar (sep : Char) : List Char → List (List Char)
  | [] => [[]]
  | c :: r =>
    let rest := splitOnChar sep r
    if c = sep then [] :: rest
    else
      match rest with
      | [] => [[c]]
      | h :: t => (c :: h) :: t

/-- Match of `/\d(4)/\d(1,2)/\d(1,2)/` continuing with one or two
digits followed by a slash; returns the remainder after that slash.
The greedy two-digit try first is exact: if two digits are followed by
anything but a slash, the one-digit alternative would need the second
character to be a slash, which a digit is not. -/
def digitsThenSlash : List Char → Option (List Char)
  | a :: b :: rest =>
    if a.isDigit ∧ b.isDigit then
      match rest with
      | c :: r2 => if c = '/' then some r2 else none
      | [] => none
    else if a.isDigit ∧ b = '/' then some rest
    else none
  | _ => none

/-- The date pattern `/\d(4)/\d(1,2)/\d(1,2)/` anchored at the head of
the character list. -/
def dateAt : List Char → Bool
  | '/' :: a :: b :: c :: d :: e :: rest =>
    if a.isDigit ∧ b.isDigit ∧ c.isDigit ∧ d.isDigit ∧ e = '/' then
      match digitsThenSlash rest with
      | some r2 => (digitsThenSlash r2).isSome
      | none => false
    else false
  | _ => false

/-- `re.search` of the date pattern anywhere in the path. -/
def hasDatePattern : List Char → Bool
  | [] => false
  | c :: r => dateAt (c :: r) || hasDatePattern r

/-- Substring containment, Python `needle in haystack`. -/
def infixOf (n : List Char) : List Char → Bool
  | [] => n.isEmpty
  | c :: r => n.isPrefixOf (c :: r) || infixOf n r

/-- Suffix test, Python `str.endswith`. -/
def endsWithL (suffix hay : List Char) : Bool :=
  suffix.reverse.isPrefixOf hay.reverse

/-- The keyword list of src/utils.py line 100. -/
def articleKeywords : List String :=
  ["article", "news", "story", "posts", "politics", "world", "economy", "health"]

/-- `len(path.strip("/").split("/"))`: the number of path segments as
the source counts them. -/
def segCount (path : List Char) : Nat :=
  (splitOnChar '/' (stripChar '/' path)).length

/-- `utils.looks_like_article_url` (src/utils.py lines 89-105),
with `parsePath` standing for `urlparse(url).path`. -/
def looksLikeArticleUrl (url : String) : Bool :=
  let path := (parsePath url).map lowerCh
  if path.isEmpty then false
  else if path = ['/'] then false
  else if segCount path ≤ 1 then false
  else if hasDatePattern path then true
  else if articleKeywords.any (fun k => infixOf k.toList path) then true
  else if endsWithL ".html".toList path || endsWithL ".htm".toList path then true
  else false

/-- The article heuristic exactly as claim C10 words it: a date
pattern in the path, a path containing one of the listed keywords, or
an `.html`/`.htm` ending. -/
def articleHeuristic (path : List Char) : Bool :=
  hasDatePattern path ||
    articleKeywords.any (fun k => infixOf k.toList path) ||
    (endsWithL ".html".toList path || endsWithL ".htm".toList path)

example : looksLikeArticleUrl "https://example.com/news/item2" = true := by rfl

example : looksLikeArticleUrl "https://example.com/foo/bar" = false := by rfl

example : looksLikeArticleUrl "https://example.com/2024/5/17/title" = true := by rfl

example : looksLikeArticleUrl "https://example.com/page.html" = false := by rfl

/-! ## `utils.sse_event`  (src/utils.py lines 107-119) -/

/-- `utils.sse_event` for a non-string payload: the payload goes
through `json.dumps`.  (The source passes `ensure_ascii=False`; the
difference only concerns non-ASCII characters, and every payload
modelled here is ASCII.) -/
def sseEvent (ev : String) (data : Json) : String :=
  "event: " ++ ev ++ "\ndata: " ++ dumpsJson data ++ "\n\n"

/-! ## The evaluator fan-out of `analysis.run_analysis`
     (src/analysis.py lines 163-299)

A dispatched evaluator call, as observed by
`asyncio.gather(*calls, return_exceptions=True)`, is either an
exception (`Except.error` carries `str(e)`) or a response dict with a
`model` name and an optional `text` entry. -/

structure CallOk where
  modelName : String
  text : Option String

/-- One gathered fan-out result. -/
def CallResult := Except String CallOk

/-- Lines 196-208 / 260-272: recover a parsed dict from the response
text; `json.loads(None)` raises `TypeError`, which the bare `except`
turns into the empty dict. -/
def parsedOf : Option String → Json
  | some s => (loads s).getD (Json.obj [])
  | none => Json.obj []

/-- Is the value a Python dict. -/
def isJDict : Json → Bool
  | .obj _ => true
  | _ => false

/-- `d.get(k, default)` on a dict. -/
def jlookup : List (String × Json) → String → Option Json
  | [], _ => none
  | (k2, v) :: r, k => if k2 = k then some v else jlookup r k

/-- `parsed.get(key, default)`; only reached once `parsed` is known to
be a dict (line 210 of the source re-serialises otherwise and the
subsequent `.get` on a non-dict raises). -/
def jget (j : Json) (k : String) (dflt : Json) : Json :=
  match j with
  | .obj kvs => (jlookup kvs k).getD dflt
  | _ => dflt

/-- One evaluation record as the fan-out loops build it. -/
structure EvalRecord where
  modelName : String
  article : Json
  publication : Json
  raw : Option Json

/-- The sentinel record of lines 181-191 / 251-257, built when a
gathered result is an exception. -/
def sentinelRecord (excStr : String) : EvalRecord :=
  { modelName := "error"
    article := Json.obj [("bias", Json.str "Unknown"), ("credibility", Json.str "Unknown"),
      ("notes", Json.str ("Model call failed: " ++ excStr))]
    publication := Json.obj [("source_of_funding", Json.null), ("location", Json.null)]
    raw := none }

/-- The record of lines 213-218 / 274-279 for a successful call. -/
def successRecord (c : CallOk) (parsed : Json) : EvalRecord :=
  { modelName := c.modelName
    article := jget parsed "article" (Json.obj [])
    publication := jget parsed "publication" (Json.obj [])
    raw := some (Json.obj [("text", parsed), ("normalized", parsed)]) }

/-- The dict sent over the wire for a record (`raw = None` serialises
as `null`). -/
def recordJson (r : EvalRecord) : Json :=
  Json.obj [("model", Json.str r.modelName), ("article", r.article),
    ("publication", r.publication), ("raw", r.raw.getD Json.null)]

/-- The non-streaming accumulation loop (src/analysis.py lines
249-279).  A success whose parsed text is not a dict makes
`parsed.get("article", ...)` raise `AttributeError`, which aborts the
whole loop; an exception result is folded into a sentinel record and
never aborts. -/
def buildEvaluations : List CallResult → Except String (List EvalRecord)
  | [] => .ok []
  | r :: rs =>
    match r with
    | .error msg => (buildEvaluations rs).map (fun evs => sentinelRecord msg :: evs)
    | .ok c =>
      let parsed := parsedOf c.text
      if isJDict parsed then
        (buildEvaluations rs).map (fun evs => successRecord c parsed :: evs)
      else .error "AttributeError: object has no attribute get"

/-! ### Pydantic validation of the response models
     (src/analysis.py lines 17-71) -/

/-- A JSON string. -/
def isJStr : Json → Bool
  | .str _ => true
  | _ => false

/-- `Optional[str]`. -/
def isStrOrNull : Json → Bool
  | .str _ => true
  | .null => true
  | _ => false

/-- `Optional[List[str]]`. -/
def isStrListOrNull : Json → Bool
  | .null => true
  | .arr xs => xs.all isJStr
  | _ => false

/-- An int or float (`confidence: float`; pydantic coerces ints). -/
def isJNum : Json → Bool
  | .num _ => true
  | _ => false

/-- Presence-and-type check for one required field. -/
def fieldIs (kvs : List (String × Json)) (k : String) (p : Json → Bool) : Bool :=
  match jlookup kvs k with
  | some v => p v
  | none => false

/-- Type check for one optional field (valid when absent). -/
def optFieldIs (kvs : List (String × Json)) (k : String) (p : Json → Bool) : Bool :=
  match jlookup kvs k with
  | some v => p v
  | none => true

/-- The `Article` model: `perspective`, `fairness`, `headline_article`
are required strings, `tone_language` is a required
`Optional[List[str]]`, `notes` is optional. -/
def validArticle (j : Json) : Bool :=
  match j with
  | .obj kvs =>
    fieldIs kvs "perspective" isJStr &&
    fieldIs kvs "tone_language" isStrListOrNull &&
    fieldIs kvs "fairness" isJStr &&
    fieldIs kvs "headline_article" isJStr &&
    optFieldIs kvs "notes" isStrOrNull
  | _ => false

/-- The `Publication` model: all three fields are required
(`Optional[...]` without a default still demands the key). -/
def validPublication (j : Json) : Bool :=
  match j with
  | .obj kvs =>
    fieldIs kvs "source_of_funding" isStrListOrNull &&
    fieldIs kvs "location" isStrOrNull &&
    fieldIs kvs "ownership" isStrOrNull
  | _ => false

/-- Validation of one record against `ModelEvaluation` inside
`AnalyzeResponse` (its `model` is always a string here, its `raw` is
an optional dict; `article` and `publication` carry the real
constraints). -/
def validateEvalRecord (r : EvalRecord) : Bool :=
  validArticle r.article && validPublication r.publication

/-! ### The streaming generator `event_stream`
     (src/analysis.py lines 175-242)

The events before any crash are observable on the wire, so the model
returns the list of emitted `(name, payload)` pairs together with an
optional abort (the uncaught exception that kills the generator).

Line 193 of the source reads the variable `evaluation` in the
exception branch, although that branch only ever assigned `ev`:
`evaluation` is unbound until the first successful result has been
processed, and afterwards still holds that earlier record. -/

/-- Loop of lines 180-220: walks the gathered results carrying the
current binding of the local variable `evaluation` (none while
unassigned).  Returns emitted evaluation events, the accumulated
records, and an optional abort. -/
def streamLoop : List CallResult → Option EvalRecord →
    List (String × Json) × List EvalRecord × Option String
  | [], _ => ([], [], none)
  | r :: rs, lastVar =>
    match r with
    | .error msg =>
      let ev := sentinelRecord msg
      match lastVar with
      | none => ([], [ev], some "UnboundLocalError: evaluation")
      | some prev =>
        let (fs, evs, ab) := streamLoop rs lastVar
        (("evaluation", recordJson prev) :: fs, ev :: evs, ab)
    | .ok c =>
      let parsed := parsedOf c.text
      if isJDict parsed then
        let evaluation := successRecord c parsed
        let (fs, evs, ab) := streamLoop rs (some evaluation)
        (("evaluation", recordJson evaluation) :: fs, evaluation :: evs, ab)
      else ([], [], some "AttributeError: object has no attribute get")

/-- `(name, payload)` of a status event. -/
def statusEvent (m : String) : String × Json :=
  ("status", Json.obj [("message", Json.str m)])

/-- The `done` payload: `AnalyzeResponse.model_dump()`, with `md`
carrying the URL/title/author/publication/summary fields that the
claims do not constrain. -/
def doneJson (md : List (String × Json)) (evs : List EvalRecord)
    (cj hj : Json) : Json :=
  Json.obj (md ++ [("evaluations", Json.arr (evs.map recordJson)),
    ("consensus", cj), ("history", hj)])

/-- `event_stream` (src/analysis.py lines 175-242).  The consensus and
history steps are external calls, passed in as their observed
outcomes; an `Except.error` there models the awaited call raising.
The final `AnalyzeResponse(...)` construction validates every
accumulated record; a record failing the `ModelEvaluation` schema
raises `ValidationError` before the `done` event. -/
def eventStreamRun (results : List CallResult) (consensus : Except String Json)
    (history : Except String Json) (md : List (String × Json)) :
    List (String × Json) × Option String :=
  let (fs, evs, ab) := streamLoop results none
  let events := statusEvent "Evaluating article..." :: fs
  match ab with
  | some e => (events, some e)
  | none =>
    let events := events ++ [statusEvent "Finding consensus..."]
    match consensus with
    | .error e => (events, some e)
    | .ok cj =>
      let events := events ++ [statusEvent "Getting historical data..."]
      match history with
      | .error e => (events, some e)
      | .ok hj =>
        if evs.all validateEvalRecord then
          (events ++ [("done", doneJson md evs cj hj)], none)
        else (events, some "ValidationError: evaluations")

/-! ## `evaluate.aggregate_evaluations`  (src/evaluate.py lines 150-209)

The consensus LLM call is external; its observed response text is the
function's parameter.  The `Consensus` pydantic model (src/analysis.py
lines 47-52) requires `article`, `publication`, `confidence` and
`notes`; `disagreements` is optional with default `[]`. -/

/-- A JSON array (Python list). -/
def isJArr : Json → Bool
  | .arr _ => true
  | _ => false

/-- `Optional[List[Disagreement]]`: the claims never constrain the
element shape, so a list or `null` suffices here. -/
def isListOrNull : Json → Bool
  | .null => true
  | .arr _ => true
  | _ => false

/-- Validation against the `Consensus` model, first failing check
wins (pydantic reports them all; only failure versus success matters
to the contract). -/
def validateConsensus (j : Json) : Except String Unit :=
  match j with
  | .obj kvs =>
    match jlookup kvs "article" with
    | none => .error "article: Field required"
    | some a =>
      if !validArticle a then .error "article: invalid"
      else
        match jlookup kvs "publication" with
        | none => .error "publication: Field required"
        | some p =>
          if !validPublication p then .error "publication: invalid"
          else
            match jlookup kvs "confidence" with
            | none => .error "confidence: Field required"
            | some cv =>
              if !isJNum cv then .error "confidence: invalid"
              else if !(optFieldIs kvs "disagreements" isListOrNull) then
                .error "disagreements: invalid"
              else
                match jlookup kvs "notes" with
                | none => .error "notes: Field required"
                | some nv => if isJStr nv then .ok () else .error "notes: invalid"
  | _ => .error "input: not a dict"

/-- The fallback payload of src/evaluate.py line 173, built inside the
`except` handler with the validation error text in `notes`. -/
def fallbackPayload (e : String) : Json :=
  Json.obj [("summary", Json.str ""), ("conclusion", Json.str "Validation failed"),
    ("notes", Json.str e)]

/-- The `ConsensusResponse` built on success (line 200): the dumped
fields plus the responding model's name. -/
def buildConsensus (j : Json) (m : String) : Json :=
  match j with
  | .obj kvs => Json.obj (kvs ++ [("model", Json.str m)])
  | _ => j

/-- `evaluate.aggregate_evaluations` as a function of the aggregator
response text (the prompt construction and the router call do not
affect the result shape).  Lines 159-166: a dict or list passes
through; a leftover string gets one more `json.loads`; anything else
becomes the empty dict.  Lines 168-174: a validation failure is
retried on `fallbackPayload`, still inside the component — an error
result models the exception escaping `aggregate_evaluations`. -/
def aggregateEvaluations (rawText : String) (respModel : String) : Except String Json :=
  let cleaned := cleanLlmJson rawText
  let parsedJson :=
    if isJDict cleaned || isJArr cleaned then cleaned
    else
      match cleaned with
      | .str s => (loads s).getD (Json.obj [])
      | _ => Json.obj []
  match validateConsensus parsedJson with
  | .ok _ => .ok (buildConsensus parsedJson respModel)
  | .error e =>
    match validateConsensus (fallbackPayload e) with
    | .ok _ => .ok (buildConsensus (fallbackPayload e) respModel)
    | .error e2 => .error e2

/-! ## The evaluator-pair cap  (src/analysis.py lines 163-172)

`pairs = [(model_list[i], model_list[i + 1]) for i in
range(0, min(len(model_list), 6), 2)][:3]`, with the indexing on an
already shuffled pool (shuffling permutes in place and leaves the
length unchanged, so the capping facts are shuffle-independent). -/

/-- `range(0, min(n, 6), 2)`. -/
def pairRange (n : Nat) : List Nat :=
  (List.range (min n 6)).filter (fun i => i % 2 = 0)

/-- The pair comprehension over given indices; `none` models the
`IndexError` of an out-of-range `model_list[i + 1]`. -/
def pairsFromIdx (pool : List String) : List Nat → Option (List (String × String))
  | [] => some []
  | i :: is =>
    match pool.get? i, pool.get? (i + 1) with
    | some a, some b => (pairsFromIdx pool is).map (fun ps => (a, b) :: ps)
    | _, _ => none

/-- The dispatched pair list, `[:3]` applied. -/
def makePairs (pool : List String) : Option (List (String × String)) :=
  (pairsFromIdx pool (pairRange pool.length)).map (fun ps => ps.take 3)

/-! ## The fetch retry policy  (src/scraper.py lines 29-100) -/

/-- An exception raised by one retrieval attempt. -/
inductive FetchExc where
  | httpStatus : Nat → FetchExc
  | transport : String → String → FetchExc
deriving DecidableEq

/-- `type(exc).__name__`. -/
def excName : FetchExc → String
  | .httpStatus _ => "HTTPStatusError"
  | .transport nm _ => nm

/-- `str(exc)`; `HTTPStatusError` is raised with message
`"HTTP " + status_code` (line 41). -/
def excStr : FetchExc → String
  | .httpStatus c => "HTTP " ++ toString c
  | .transport _ m => m

/-- The `isinstance(..., HTTPStatusError) and status_code == 403`
check of line 78. -/
def isHttp403 : FetchExc → Bool
  | .httpStatus c => c = 403
  | .transport _ _ => false

/-- What one `client.get` observes: a response, or a transport
exception. -/
inductive AttemptIn where
  | resp : Nat → String → AttemptIn
  | exc : FetchExc → AttemptIn

/-- The body of `fetch_with_retries` for one attempt (lines 38-45):
any status of 400 or above is turned into `HTTPStatusError`. -/
def runAttempt : AttemptIn → Except FetchExc String
  | .resp s b => if 400 ≤ s then .error (.httpStatus s) else .ok b
  | .exc e => .error e

/-- `tenacity.wait_exponential(multiplier=1, min=1, max=8)` after the
`n`-th failed attempt: `max(min, min(multiplier * 2^(n-1), max))`. -/
def tenacityWait (n : Nat) : ℚ :=
  max 1 (min ((2 : ℚ) ^ (n - 1)) 8)

/-- Result of the decorated `fetch_with_retries`. -/
structure FetchRun where
  result : Except FetchExc String
  attemptsMade : Nat
  waits : List ℚ

/-- `@retry(stop=stop_after_attempt(3), wait=wait_exponential(...))`
around the single-attempt body: up to 3 attempts, waiting between
them; after the third failure tenacity raises `RetryError` wrapping
the last exception (modelled by the `Except.error`). -/
def fetchWithRetries (att : Nat → AttemptIn) : FetchRun :=
  match runAttempt (att 1) with
  | .ok t => ⟨.ok t, 1, []⟩
  | .error _ =>
    match runAttempt (att 2) with
    | .ok t => ⟨.ok t, 2, [tenacityWait 1]⟩
    | .error _ =>
      match runAttempt (att 3) with
      | .ok t => ⟨.ok t, 3, [tenacityWait 1, tenacityWait 2]⟩
      | .error e => ⟨.error e, 3, [tenacityWait 1, tenacityWait 2]⟩

/-- Outcome of the fetch phase of `scrape_article`: html to parse, or
the error dict the function returns instead of raising. -/
inductive ScrapeResult where
  | html : String → ScrapeResult
  | errorDict : String → ScrapeResult
deriving DecidableEq

/-- The fetch phase of `scrape_article` (lines 70-100) together with
the observation whether the Playwright fallback ran.  Only the
`RetryError` handler is reachable on failure: the decorated call
raises nothing but `RetryError` once the attempts are exhausted, so
the direct `HTTPStatusError` handler of line 89 ("just in case") is
dead.  `pw` is the observed outcome of `fetch_with_playwright`. -/
def scrapeArticleFetch (att : Nat → AttemptIn) (pw : Except String String) :
    ScrapeResult × Bool :=
  match (fetchWithRetries att).result with
  | .ok h => (.html h, false)
  | .error e =>
    if isHttp403 e then
      match pw with
      | .ok h2 => (.html h2, true)
      | .error m => (.errorDict ("Playwright fallback failed: " ++ m), true)
    else
      (.errorDict ("Fetch failed after retries: " ++ excName e ++ ": " ++ excStr e), false)

/-! ## The scrape phase of `run_analysis`  (src/analysis.py lines 82-94) -/

/-- The dict `scrape_article` returns, reduced to the keys
`run_analysis` reads. -/
structure Scraped where
  errorMsg : Option String
  text : Option String
  title : Option String

/-- From the fetch outcome to the returned dict: the error dict has
neither `text` nor `title`; html goes to the `newspaper` parser,
abstracted as `parse`. -/
def scrapedOf (parse : String → Scraped) : ScrapeResult → Scraped
  | .html h => parse h
  | .errorDict m => { errorMsg := some m, text := none, title := none }

/-- Lines 87-94 of `run_analysis`: `scraped.get("text") or ""`,
`scraped.get("title") or ""`, then the two content-validation gates
that raise `HTTPException(400, ...)`.  The `error` key of the dict is
never read. -/
def analysisScrapeCheck (scraped : Scraped) : Except (Nat × String) Scraped :=
  let text := scraped.text.getD ""
  let title := scraped.title.getD ""
  if (pyStripWs text.toList).length < 500 then
    .error (400, "Extracted content is too short — likely not a full article.")
  else if title = "" ∨ (pyStripWs title.toList).length < 5 then
    .error (400, "No valid title detected — likely not a news article.")
  else .ok scraped

/-! ## `db.get_consensus_stats_for_url`  (src/db.py lines 50-190)

The DB rows are modelled after the JSON parsing of lines 60-101: one
`ConsensusPart` mirrors the seven-key `mapping` dict built from a
record's consensus (respectively from one of its evaluations).  The
arithmetic of lines 105-124 is over exact rationals; Python rounds
floats half to even, which `roundHalfEven` reproduces. -/

/-- A stored JSON field value as the stats code sees it: a string or a
list of strings (`tone_language`, `source_of_funding`). -/
inductive PyVal where
  | s : String → PyVal
  | l : List String → PyVal
deriving DecidableEq

/-- `str(v).lower() == "no consensus"` of line 111: the `str()` of a
Python list is its bracketed repr and never equals that phrase. -/
def noCons : PyVal → Bool
  | .s x => (x.toList.map lowerCh) = "no consensus".toList
  | .l _ => false

/-- The seven-key `mapping` dict of lines 67-75 / 85-93. -/
structure ConsensusPart where
  perspective : Option PyVal
  tone_language : Option PyVal
  fairness : Option PyVal
  headline_article : Option PyVal
  source_of_funding : Option PyVal
  ownership : Option PyVal
  location : Option PyVal
deriving DecidableEq

/-- `mapping[field]`. -/
def ConsensusPart.fieldGet (m : ConsensusPart) (f : String) : Option PyVal :=
  if f = "perspective" then m.perspective
  else if f = "tone_language" then m.tone_language
  else if f = "fairness" then m.fairness
  else if f = "headline_article" then m.headline_article
  else if f = "source_of_funding" then m.source_of_funding
  else if f = "ownership" then m.ownership
  else if f = "location" then m.location
  else none

/-- One parsed DB row: its consensus mapping and the mapping of each
of its evaluations. -/
structure RowData where
  consensusPart : ConsensusPart
  evalParts : List ConsensusPart
deriving DecidableEq

/-- `db.CONSENSUS_FIELDS`. -/
def CONSENSUS_FIELDS : List String :=
  ["perspective", "tone_language", "fairness", "headline_article",
    "source_of_funding", "ownership", "location"]

/-- `field_values[field]` after the collection loop: every non-`None`
consensus value, row order. -/
def fieldValues (rows : List RowData) (f : String) : List PyVal :=
  rows.filterMap (fun r => r.consensusPart.fieldGet f)

/-- Flattening of lines 94-100: a list extends, a string appends. -/
def flattenAnswers (vs : List PyVal) : List String :=
  vs.foldr (fun v acc => (match v with | .s x => [x] | .l xs => xs) ++ acc) []

/-- `field_answers[field]` after the collection loop. -/
def fieldAnswers (rows : List RowData) (f : String) : List String :=
  rows.foldr (fun r acc => flattenAnswers (r.evalParts.filterMap (fun e => e.fieldGet f)) ++ acc) []

/-- `collections.Counter` as an insertion-ordered association list,
matching `Counter.items()`. -/
def counter (xs : List String) : List (String × Nat) :=
  xs.foldl (fun acc x =>
    if acc.any (fun p => p.1 = x) then
      acc.map (fun p => if p.1 = x then (p.1, p.2 + 1) else p)
    else acc ++ [(x, 1)]) []

/-- Python `round` to an integer: half to even. -/
def roundHalfEven (x : ℚ) : ℤ :=
  if x - Int.floor x < 1 / 2 then Int.floor x
  else if 1 / 2 < x - Int.floor x then Int.floor x + 1
  else if Int.floor x % 2 = 0 then Int.floor x else Int.floor x + 1

/-- Python `round(x, 1)`. -/
def round1 (x : ℚ) : ℚ :=
  (roundHalfEven (x * 10) : ℚ) / 10

/-- One entry of the stats map (lines 119-124). -/
structure FieldStat where
  no_consensus : ℚ
  consensus : ℚ
  total : Nat
  answers : List (String × Nat)
deriving DecidableEq

/-- Lines 107-124 for one field: empty observation lists are skipped
(`continue`), otherwise the yes/no ratios are rounded to one decimal
and the answer table is the `Counter` of the flattened answers. -/
def fieldStat (values : List PyVal) (answers : List String) : Option FieldStat :=
  if values.isEmpty then none
  else
    let noCount := (values.filter noCons).length
    let yesCount := (values.filter (fun v => !noCons v)).length
    let total := noCount + yesCount
    some
      { no_consensus := round1 (((noCount : ℚ) / (total : ℚ)) * 100)
        consensus := round1 (((yesCount : ℚ) / (total : ℚ)) * 100)
        total := total
        answers := counter answers }

/-- The stats map in `CONSENSUS_FIELDS` insertion order. -/
def computeStats (rows : List RowData) : List (String × FieldStat) :=
  CONSENSUS_FIELDS.filterMap (fun f =>
    (fieldStat (fieldValues rows f) (fieldAnswers rows f)).map (fun st => (f, st)))

/-- Lines 182-188: for every field of the deduplication response that
is in `stats`, overwrite `total` with the summed canonical counts and
`answers` with the canonical table; fields the response omits keep
their raw table. -/
def mergeDedup (stats : List (String × FieldStat))
    (dm : List (String × List (String × Nat))) : List (String × FieldStat) :=
  dm.foldl (fun acc fd =>
    acc.map (fun p =>
      if p.1 = fd.1 then
        (p.1, { p.2 with total := fd.2.foldl (fun a q => a + q.2) 0, answers := fd.2 })
      else p)) stats

/-- The value `get_consensus_stats_for_url` returns. -/
structure StatsResult where
  url : String
  statsMap : List (String × FieldStat)
  modelUsed : Option String
deriving DecidableEq

/-- `db.get_consensus_stats_for_url` (lines 50-190) as a function of
the parsed rows and of the observed deduplication call.  `dedup`
stands for the combined outcome of `models.call_openrouter` plus
`Deduplication.model_validate_json` plus the flattening of lines
177-179: on success a field-to-canonical-answers map and the model
name, on failure the exception — the source wraps none of it in a
`try`, so the error propagates out of the function. -/
def getConsensusStatsForUrl (url : String) (rows : List RowData)
    (dedup : Except String (List (String × List (String × Nat)) × String)) :
    Except String StatsResult :=
  match rows with
  | [] => .ok { url := url, statsMap := [], modelUsed := none }
  | _ :: _ =>
    let stats := computeStats rows
    match dedup with
    | .error e => .error e
    | .ok dm => .ok { url := url, statsMap := mergeDedup stats dm.1, modelUsed := some dm.2 }

/-! ## Concrete data used by the theorems -/

/-- A well-formed evaluator response value. -/
def evalJson : Json :=
  Json.obj [("article", Json.obj [("perspective", Json.str "Neutral"),
      ("tone_language", Json.arr [Json.str "Calm"]), ("fairness", Json.str "High"),
      ("headline_article", Json.str "Small"), ("notes", Json.str "ok")]),
    ("publication", Json.obj [("source_of_funding", Json.null),
      ("location", Json.str "US"), ("ownership", Json.str "X")])]

/-- A successful evaluator call. -/
def callA : CallOk := ⟨"modelA", some (dumpsJson evalJson)⟩

/-- A second successful evaluator call. -/
def callB : CallOk := ⟨"modelB", some (dumpsJson evalJson)⟩

/-- Metadata fields of the final response, unconstrained by the
claims. -/
def mdEx : List (String × Json) := [("url", Json.str "https://example.com/news/a1")]

/-- An observed successful consensus step. -/
def cOK : Except String Json := .ok (Json.obj [("confidence", Json.num 1)])

/-- An observed successful history step. -/
def hOK : Except String Json := .ok (Json.obj [])

/-- A row whose consensus carries only a `fairness` value. -/
def fairnessRow (v : String) : RowData :=
  ⟨⟨none, none, some (.s v), none, none, none, none⟩, []⟩

/-- Five persisted records: `fairness` reaches consensus in four and
fails in one. -/
def exampleRows : List RowData :=
  [fairnessRow "High", fairnessRow "High", fairnessRow "High",
    fairnessRow "High", fairnessRow "No Consensus"]

/-- The object of the C4 round-trip instance. -/
def exC4 : Json := Json.obj [("a", Json.num 1)]

/-! ## Claim theorems -/

/-- C1: the claim says a semantic-aggregator response failing
structural validation yields a degraded ConsensusResult and never
raises past `aggregate_evaluations`.  On an unparseable response the
parsed payload is the empty dict, its validation fails, and the
fallback payload of the `except` handler — lacking `article`,
`publication` and `confidence` — fails the same validation, so the
handler itself raises `ValidationError` out of the component: the
result is an error, not a ConsensusResult. -/
theorem aggregate_validation_failure_raises :
    aggregateEvaluations "Sorry, I could not produce structured output." "meta" =
      Except.error "article: Field required" ∧
    validateConsensus (fallbackPayload "article: Field required") =
      Except.error "article: Field required" := by
  exact ⟨rfl, rfl⟩

/-- C4: the claim says fence-wrapping and/or double-encoding a JSON
object round-trips through `clean_llm_json`.  The fenced single
encoding does round-trip, but `strip` of the double quotes (line 18 of
src/utils.py) tears the outer quotes off a double-encoded object, so
its inner escaped quotes no longer parse and both double-encoded forms
collapse to the empty dict. -/
theorem clean_llm_json_double_encoding_bug :
    cleanLlmJson ("```json\n" ++ dumpsJson exC4 ++ "\n```") = exC4 ∧
    cleanLlmJson (dumpsJson (Json.str (dumpsJson exC4))) = Json.obj [] ∧
    cleanLlmJson ("```json\n" ++ dumpsJson (Json.str (dumpsJson exC4)) ++ "\n```") =
      Json.obj [] ∧
    Json.obj [] ≠ exC4 := by
  refine ⟨rfl, rfl, rfl, ?_⟩
  intro h
  injection h with h1
  simp at h1

set_option maxRecDepth 4000

/-- C2: the claim says a batch with k failing calls yields N records
with k sentinels in dispatch order in both pipelines, and no failure
aborts.  The accumulation loop itself does behave so (first
conjunct: sentinel at the failing dispatch position, `model="error"`,
`raw=None`).  But the streaming generator's exception branch yields
the variable `evaluation` instead of the sentinel `ev` it just built
(src/analysis.py line 193): with the failure first in the batch the
variable is unbound and the generator dies after the initial status
event; and the sentinel record also fails the `ModelEvaluation` schema
of the final `AnalyzeResponse`, so even the non-streaming pipeline
cannot return the array. -/
theorem evaluator_failure_isolation_bug :
    buildEvaluations [Except.ok callA, Except.error "TimeoutError", Except.ok callB] =
      Except.ok [successRecord callA evalJson, sentinelRecord "TimeoutError",
        successRecord callB evalJson] ∧
    (sentinelRecord "TimeoutError").modelName = "error" ∧
    (sentinelRecord "TimeoutError").raw = none ∧
    (successRecord callA evalJson).raw ≠ none ∧
    (successRecord callB evalJson).raw ≠ none ∧
    eventStreamRun [Except.error "TimeoutError"] cOK hOK mdEx =
      ([statusEvent "Evaluating article..."], some "UnboundLocalError: evaluation") ∧
    validateEvalRecord (sentinelRecord "TimeoutError") = false := by
  refine ⟨rfl, rfl, rfl, ?_, ?_, rfl, rfl⟩
  · simp [successRecord]
  · simp [successRecord]

/-- C8: the claim says every valid URL streamed yields exactly
`status, evaluation per record in dispatch order, status, status,
done`, in the given frame format.  With every evaluator call
succeeding the sequence is exactly that (first conjunct) and the frame
rendering is exact (second conjunct).  But when a call fails after a
success, line 193 re-emits the previous record's payload in place of
the sentinel's, and the sentinel then fails the final response
validation, killing the generator before any `done` frame (third
conjunct: the second and third events carry the same payload and no
`done` event exists). -/
theorem stream_event_sequence_bug :
    eventStreamRun [Except.ok callA, Except.ok callB] cOK hOK mdEx =
      ([statusEvent "Evaluating article...",
        ("evaluation", recordJson (successRecord callA evalJson)),
        ("evaluation", recordJson (successRecord callB evalJson)),
        statusEvent "Finding consensus...",
        statusEvent "Getting historical data...",
        ("done", doneJson mdEx [successRecord callA evalJson, successRecord callB evalJson]
          (Json.obj [("confidence", Json.num 1)]) (Json.obj []))], none) ∧
    sseEvent "status" (Json.obj [("message", Json.str "Evaluating article...")]) =
      "event: status\ndata: \x7b\"message\": \"Evaluating article...\"\x7d\n\n" ∧
    eventStreamRun [Except.ok callA, Except.error "boom"] cOK hOK mdEx =
      ([statusEvent "Evaluating article...",
        ("evaluation", recordJson (successRecord callA evalJson)),
        ("evaluation", recordJson (successRecord callA evalJson)),
        statusEvent "Finding consensus...",
        statusEvent "Getting historical data..."], some "ValidationError: evaluations") ∧
    (successRecord callA evalJson).modelName = "modelA" := by
  exact ⟨rfl, rfl, rfl, rfl⟩

/-- All three retrieval attempts answer HTTP 500. -/
def att500 : Nat → AttemptIn := fun _ => .resp 500 "Server Error"

/-- C6: the claim says a terminal fetch failure surfaces as a client
error reporting the underlying status or exception class, distinct
from the content-validation errors.  The scraper builds exactly such a
message — but returns it inside an error dict instead of raising, and
`run_analysis` never reads the `error` key: the empty text then trips
the length gate, so the user sees the generic "content too short"
content-validation error with no trace of the status. -/
theorem fetch_failure_surfaces_as_content_error :
    (scrapeArticleFetch att500 (.error "unused")).1 =
      .errorDict "Fetch failed after retries: HTTPStatusError: HTTP 500" ∧
    analysisScrapeCheck
        (scrapedOf (fun _ => ⟨none, none, none⟩) (scrapeArticleFetch att500 (.error "unused")).1) =
      .error (400, "Extracted content is too short — likely not a full article.") := by
  exact ⟨rfl, rfl⟩

/-- C3 counterexample: the claim says a failing canonicalization call
still returns the raw stats map.  With five persisted rows and the
deduplication call failing, `get_consensus_stats_for_url` propagates
the error instead of returning any stats. -/
theorem canonicalization_failure_cx :
    getConsensusStatsForUrl "https://example.com/news/a1" exampleRows (.error "HTTPError") =
      Except.error "HTTPError" ∧
    ¬ getConsensusStatsForUrl "https://example.com/news/a1" exampleRows (.error "HTTPError") =
        Except.ok
          { url := "https://example.com/news/a1",
            statsMap := computeStats exampleRows, modelUsed := none } := by
  exact ⟨rfl, by intro h; exact Except.noConfusion h⟩

/-- C3 amended: if the canonicalization call fails or its response is
invalid, the exception propagates out of `get_consensus_stats_for_url`
(there is no `try` around the deduplication step), so the caller gets
the error, not the raw frequency tables. -/
theorem canonicalization_failure_propagates (url : String) (rows : List RowData)
    (e : String) (h : rows ≠ []) :
    getConsensusStatsForUrl url rows (.error e) = .error e := by
  cases rows with
  | nil => exact absurd rfl h
  | cons r rs => rfl

/-- Witness for `canonicalization_failure_propagates` at the five
example rows. -/
theorem canonicalization_failure_propagates_witness :
    exampleRows ≠ [] ∧
    getConsensusStatsForUrl "https://example.com/news/a1" exampleRows
        (.error "DeduplicationFailed") = .error "DeduplicationFailed" :=
  ⟨by decide, canonicalization_failure_propagates "https://example.com/news/a1" exampleRows
    "DeduplicationFailed" (by decide)⟩

/-- C9 counterexample: the claim says the pair construction is free of
out-of-bounds access for every pool size.  A pool of three evaluators
drives `model_list[i + 1]` past the end: `IndexError`. -/
theorem pair_capping_oob_cx :
    makePairs ["modelA", "modelB", "modelC"] = none := by
  rfl

/-- C5: with every attempt failing, the fetcher makes exactly 3
attempts, its two inter-attempt backoffs are the strictly increasing
1s and 2s (each below the 8s cap of `wait_exponential(max=8)`), and
the Playwright full-render fallback runs exactly when the terminal
(third) failure is an `HTTPStatusError` with status 403. -/
theorem fetch_retry_backoff_and_403_fallback (att : Nat → AttemptIn)
    (pw : Except String String)
    (h1 : ∃ e, runAttempt (att 1) = .error e)
    (h2 : ∃ e, runAttempt (att 2) = .error e)
    (h3 : ∃ e, runAttempt (att 3) = .error e) :
    (fetchWithRetries att).attemptsMade = 3 ∧
    (fetchWithRetries att).waits = [1, 2] ∧
    List.Chain' (· < ·) (fetchWithRetries att).waits ∧
    (∀ w ∈ (fetchWithRetries att).waits, w ≤ 8) ∧
    ((scrapeArticleFetch att pw).2 = true ↔
      ∃ e, runAttempt (att 3) = .error e ∧ isHttp403 e = true) := by
  obtain ⟨e1, he1⟩ := h1
  obtain ⟨e2, he2⟩ := h2
  obtain ⟨e3, he3⟩ := h3
  have hw1 : tenacityWait 1 = 1 := by norm_num [tenacityWait]
  have hw2 : tenacityWait 2 = 2 := by norm_num [tenacityWait]
  have hrun : fetchWithRetries att =
      ⟨.error e3, 3, [tenacityWait 1, tenacityWait 2]⟩ := by
    unfold fetchWithRetries
    rw [he1, he2, he3]
  have hflag : (scrapeArticleFetch att pw).2 = isHttp403 e3 := by
    unfold scrapeArticleFetch
    rw [hrun]
    by_cases hh : isHttp403 e3 = true
    · cases pw <;> simp [hh]
    · rw [Bool.not_eq_true] at hh
      simp [hh]
  refine ⟨by rw [hrun], by rw [hrun, hw1, hw2], ?_, ?_, ?_⟩
  · rw [hrun, hw1, hw2]
    simp only [List.chain'_cons, List.chain'_singleton, and_true]
    norm_num
  · rw [hrun, hw1, hw2]
    intro w hw
    simp only [List.mem_cons, List.not_mem_nil, or_false] at hw
    rcases hw with rfl | rfl <;> norm_num
  · rw [hflag]
    constructor
    · intro hh
      exact ⟨e3, he3, hh⟩
    · rintro ⟨e, he, hh⟩
      rw [he3] at he
      injection he with hee
      rw [hee]
      exact hh

/-- All three retrieval attempts answer HTTP 403. -/
def att403 : Nat → AttemptIn := fun _ => .resp 403 "Forbidden"

/-- Witness for `fetch_retry_backoff_and_403_fallback`: three 403
responses. -/
theorem fetch_retry_backoff_and_403_fallback_witness :
    (∃ e, runAttempt (att403 1) = .error e) ∧
    ((fetchWithRetries att403).attemptsMade = 3 ∧
      (fetchWithRetries att403).waits = [1, 2] ∧
      List.Chain' (· < ·) (fetchWithRetries att403).waits ∧
      (∀ w ∈ (fetchWithRetries att403).waits, w ≤ 8) ∧
      ((scrapeArticleFetch att403 (.ok "html")).2 = true ↔
        ∃ e, runAttempt (att403 3) = .error e ∧ isHttp403 e = true)) :=
  ⟨⟨.httpStatus 403, rfl⟩,
    fetch_retry_backoff_and_403_fallback att403 (.ok "html")
      ⟨.httpStatus 403, rfl⟩ ⟨.httpStatus 403, rfl⟩ ⟨.httpStatus 403, rfl⟩⟩

/-- Half-to-even rounding moves a rational by at most one half. -/
theorem abs_roundHalfEven_sub (x : ℚ) : |(roundHalfEven x : ℚ) - x| ≤ 1 / 2 := by
  have h0 : (Int.floor x : ℚ) ≤ x := Int.floor_le x
  have h1 : x < (Int.floor x : ℚ) + 1 := Int.lt_floor_add_one x
  unfold roundHalfEven
  split_ifs with hlt hgt hev
  · rw [abs_sub_comm, abs_of_nonneg (by linarith)]
    linarith
  · push_cast
    rw [abs_of_nonneg (by linarith)]
    linarith
  · have heq : x - (Int.floor x : ℚ) = 1 / 2 := le_antisymm (not_lt.1 hgt) (not_lt.1 hlt)
    rw [abs_sub_comm, abs_of_nonneg (by linarith)]
    linarith
  · have heq : x - (Int.floor x : ℚ) = 1 / 2 := le_antisymm (not_lt.1 hgt) (not_lt.1 hlt)
    push_cast
    rw [abs_of_nonneg (by linarith)]
    linarith

/-- A Boolean filter and its complement partition a list's length. -/
theorem length_filter_partition (l : List PyVal) (p : PyVal → Bool) :
    (l.filter p).length + (l.filter (fun v => !p v)).length = l.length := by
  induction l with
  | nil => simp
  | cons a l ih =>
    by_cases h : p a <;> simp [List.filter, h] <;> omega

/-- Evaluation of the stats entry for the example `fairness` values. -/
theorem fieldStat_fairness_eval :
    fieldStat [PyVal.s "High", PyVal.s "High", PyVal.s "High", PyVal.s "High",
      PyVal.s "No Consensus"] [] =
      some { no_consensus := 20, consensus := 80, total := 5, answers := [] } := by
  have hH : noCons (PyVal.s "High") = false := by rfl
  have hN : noCons (PyVal.s "No Consensus") = true := by rfl
  rw [fieldStat]
  simp only [List.isEmpty_cons, Bool.false_eq_true, if_false, List.filter_cons, hH, hN,
    Bool.not_false, Bool.not_true, List.filter_nil, List.length_cons, List.length_nil]
  norm_num [round1, roundHalfEven, counter]

/-- Evaluation of the whole stats map on the example rows: only
`fairness` appears. -/
theorem computeStats_example_eval :
    computeStats exampleRows =
      [("fairness", { no_consensus := 20, consensus := 80, total := 5, answers := [] })] := by
  have hemp : ∀ ans, fieldStat [] ans = none := fun _ => rfl
  have hp : fieldValues exampleRows "perspective" = [] := by rfl
  have ht : fieldValues exampleRows "tone_language" = [] := by rfl
  have hf : fieldValues exampleRows "fairness" =
      [PyVal.s "High", PyVal.s "High", PyVal.s "High", PyVal.s "High",
        PyVal.s "No Consensus"] := by rfl
  have hh : fieldValues exampleRows "headline_article" = [] := by rfl
  have hs : fieldValues exampleRows "source_of_funding" = [] := by rfl
  have ho : fieldValues exampleRows "ownership" = [] := by rfl
  have hl : fieldValues exampleRows "location" = [] := by rfl
  have hfa : fieldAnswers exampleRows "fairness" = [] := by rfl
  rw [computeStats, CONSENSUS_FIELDS]
  simp only [List.filterMap_cons, List.filterMap_nil, hp, ht, hf, hh, hs, ho, hl, hfa,
    hemp, fieldStat_fairness_eval, Option.map_none', Option.map_some']

/-- C7: whenever a field has observations, its two rounded
percentages sum to 100 within one rounding step (each half-even
rounding moves its summand by at most 0.05 percentage points); and
the five example records with four consensus and one no-consensus
`fairness` value produce exactly consensus 80.0 / no-consensus 20.0
with five total observations, every zero-observation field being
omitted from the stats map. -/
theorem consensus_ratio_invariant :
    (∀ values answers st, fieldStat values answers = some st →
      |st.consensus + st.no_consensus - 100| ≤ 1 / 10) ∧
    computeStats exampleRows =
      [("fairness", { no_consensus := 20, consensus := 80, total := 5, answers := [] })] := by
  refine ⟨?_, computeStats_example_eval⟩
  intro values answers st h
  rw [fieldStat] at h
  by_cases hne : values.isEmpty
  · rw [if_pos hne] at h
    exact Option.noConfusion h
  · rw [if_neg hne] at h
    injection h with h
    subst h
    simp only
    set n := (values.filter noCons).length with hn
    set y := (values.filter (fun v => !noCons v)).length with hy
    have htot : n + y = values.length := length_filter_partition values noCons
    have hpos : 0 < values.length := by
      cases values with
      | nil => simp at hne
      | cons a l => simp
    have htne : ((n + y : Nat) : ℚ) ≠ 0 := by
      rw [htot]
      have : values.length ≠ 0 := by omega
      exact_mod_cast this
    set a := ((y : Nat) : ℚ) / ((n + y : Nat) : ℚ) * 100 with ha
    set b := ((n : Nat) : ℚ) / ((n + y : Nat) : ℚ) * 100 with hb
    have hab : a + b = 100 := by
      rw [ha, hb, div_mul_eq_mul_div, div_mul_eq_mul_div, div_add_div_same,
        div_eq_iff htne]
      push_cast
      ring
    have hu := abs_roundHalfEven_sub (a * 10)
    have hv := abs_roundHalfEven_sub (b * 10)
    simp only [round1]
    rw [abs_le] at hu hv ⊢
    constructor <;> [skip; skip] <;>
      obtain ⟨hu1, hu2⟩ := hu <;> obtain ⟨hv1, hv2⟩ := hv <;> linarith

/-- Evaluation of the stats entry for one consensus and one
no-consensus observation. -/
theorem fieldStat_pair_eval :
    fieldStat [PyVal.s "High", PyVal.s "No Consensus"] [] =
      some { no_consensus := 50, consensus := 50, total := 2, answers := [] } := by
  have hH : noCons (PyVal.s "High") = false := by rfl
  have hN : noCons (PyVal.s "No Consensus") = true := by rfl
  rw [fieldStat]
  simp only [List.isEmpty_cons, Bool.false_eq_true, if_false, List.filter_cons, hH, hN,
    Bool.not_false, Bool.not_true, List.filter_nil, List.length_cons, List.length_nil]
  norm_num [round1, roundHalfEven, counter]

/-- Witness for `consensus_ratio_invariant` at a concrete
observation list. -/
theorem consensus_ratio_invariant_witness :
    fieldStat [PyVal.s "High", PyVal.s "No Consensus"] [] =
      some { no_consensus := 50, consensus := 50, total := 2, answers := [] } ∧
    |(50 : ℚ) + 50 - 100| ≤ 1 / 10 := by
  refine ⟨fieldStat_pair_eval, ?_⟩
  have h := consensus_ratio_invariant.1 [PyVal.s "High", PyVal.s "No Consensus"] []
    { no_consensus := 50, consensus := 50, total := 2, answers := [] } fieldStat_pair_eval
  simpa using h

/-- Membership in `pairRange`: an even index below `min n 6`. -/
theorem pairRange_mem {n i : Nat} (h : i ∈ pairRange n) : i % 2 = 0 ∧ i < min n 6 := by
  unfold pairRange at h
  simp only [List.mem_filter, List.mem_range, decide_eq_true_eq] at h
  exact ⟨h.2, h.1⟩

/-- There are `(m + 1) / 2` even numbers below `m`. -/
theorem pairRange_length (n : Nat) : (pairRange n).length = (min n 6 + 1) / 2 := by
  unfold pairRange
  generalize min n 6 = m
  induction m with
  | zero => rfl
  | succ k ih =>
    rw [List.range_succ, List.filter_append, List.length_append, ih]
    by_cases h : k % 2 = 0 <;> simp [h] <;> omega

/-- The comprehension succeeds when every index and its successor are
in range, producing one pair per index. -/
theorem pairsFromIdx_isSome {pool : List String} {idxs : List Nat}
    (h : ∀ i ∈ idxs, i + 1 < pool.length) :
    ∃ ps, pairsFromIdx pool idxs = some ps ∧ ps.length = idxs.length := by
  induction idxs with
  | nil => exact ⟨[], rfl, rfl⟩
  | cons i is ih =>
    have hi := h i (List.mem_cons_self i is)
    obtain ⟨ps, hps, hlen⟩ := ih (fun j hj => h j (List.mem_cons_of_mem _ hj))
    have ha : pool.get? i = some (pool.get ⟨i, by omega⟩) := List.get?_eq_get (by omega)
    have hb : pool.get? (i + 1) = some (pool.get ⟨i + 1, hi⟩) := List.get?_eq_get hi
    refine ⟨(pool.get ⟨i, by omega⟩, pool.get ⟨i + 1, hi⟩) :: ps, ?_, ?_⟩
    · rw [pairsFromIdx, ha, hb, hps]
      rfl
    · simp [hlen]

/-- C9 amended: the claim's partition-and-cap behaviour does hold for
every even-sized pool and every pool of six or more evaluators — at
most 3 pairs, using exactly the first `min n 6` shuffled entries —
but an odd pool of fewer than six raises `IndexError`
(`pair_capping_oob_cx`). -/
theorem pair_capping_even_or_large (pool : List String)
    (h : pool.length % 2 = 0 ∨ 6 ≤ pool.length) :
    ∃ ps, makePairs pool = some ps ∧ ps.length ≤ 3 ∧ 2 * ps.length = min pool.length 6 := by
  have hmem : ∀ i ∈ pairRange pool.length, i + 1 < pool.length := by
    intro i hi
    obtain ⟨h2, hlt⟩ := pairRange_mem hi
    rcases h with he | h6
    · have : i < pool.length := lt_of_lt_of_le hlt (min_le_left _ _)
      omega
    · have : i < 6 := lt_of_lt_of_le hlt (min_le_right _ _)
      omega
  obtain ⟨ps, hps, hlen⟩ := pairsFromIdx_isSome hmem
  have hmin_even : min pool.length 6 % 2 = 0 := by
    rcases le_total pool.length 6 with hc | hc
    · rw [min_eq_left hc]
      rcases h with he | h6 <;> omega
    · rw [min_eq_right hc]
  have hlen' : ps.length = (min pool.length 6 + 1) / 2 := by
    rw [hlen, pairRange_length]
  have hle : ps.length ≤ 3 := by
    have : min pool.length 6 ≤ 6 := min_le_right _ _
    omega
  refine ⟨ps.take 3, ?_, ?_, ?_⟩
  · rw [makePairs, hps]
    rfl
  · simp [List.length_take]
  · rw [List.length_take]
    omega

/-- Witness for `pair_capping_even_or_large`: a pool of seven. -/
theorem pair_capping_even_or_large_witness :
    ((["m1", "m2", "m3", "m4", "m5", "m6", "m7"] : List String).length % 2 = 0 ∨
      6 ≤ (["m1", "m2", "m3", "m4", "m5", "m6", "m7"] : List String).length) ∧
    ∃ ps, makePairs ["m1", "m2", "m3", "m4", "m5", "m6", "m7"] = some ps ∧
      ps.length ≤ 3 ∧ 2 * ps.length = min (["m1", "m2", "m3", "m4", "m5", "m6", "m7"] :
        List String).length 6 :=
  ⟨Or.inr (by decide),
    pair_capping_even_or_large ["m1", "m2", "m3", "m4", "m5", "m6", "m7"] (Or.inr (by decide))⟩

/-- C10: the pre-fetch gate accepts only paths with at least two
segments that additionally pass the article heuristic (date pattern,
keyword containment, or `.html`/`.htm` ending); consequently it
rejects some two-segment URLs — `https://example.com/foo/bar` has two
path segments and is refused before any network fetch. -/
theorem url_gate_requires_segments_and_heuristic :
    (∀ url : String, looksLikeArticleUrl url = true →
      2 ≤ segCount ((parsePath url).map lowerCh) ∧
      articleHeuristic ((parsePath url).map lowerCh) = true) ∧
    (segCount ((parsePath "https://example.com/foo/bar").map lowerCh) = 2 ∧
      looksLikeArticleUrl "https://example.com/foo/bar" = false) := by
  constructor
  · intro url h
    simp only [looksLikeArticleUrl] at h
    set path := (parsePath url).map lowerCh with hp
    split_ifs at h with h1 h2 h3 h4 h5 h6 <;> try simp at h
    · exact ⟨by omega, by simp [articleHeuristic, h4]⟩
    · refine ⟨by omega, ?_⟩
      simp only [articleHeuristic, Bool.or_eq_true]
      exact Or.inl (Or.inr h5)
    · refine ⟨by omega, ?_⟩
      simp only [articleHeuristic, Bool.or_eq_true]
      rw [Bool.or_eq_true] at h6
      exact Or.inr h6
  · exact ⟨by rfl, by rfl⟩

/-- Witness for `url_gate_requires_segments_and_heuristic` at an
accepted URL. -/
theorem url_gate_requires_segments_and_heuristic_witness :
    looksLikeArticleUrl "https://example.com/news/item2" = true ∧
    (2 ≤ segCount ((parsePath "https://example.com/news/item2").map lowerCh) ∧
      articleHeuristic ((parsePath "https://example.com/news/item2").map lowerCh) = true) :=
  ⟨by rfl,
    url_gate_requires_segments_and_heuristic.1 "https://example.com/news/item2" (by rfl)⟩
